import Mathlib

/-!
Shallow embedding of `src/device.rs` from the `smoltcp_uefi` repository.

The module defines `SnpDevice`, a smoltcp `Device` adapter over a UEFI
`SimpleNetwork` handle, together with its receive and transmit tokens.
The external `SimpleNetwork` collaborator is modelled as an explicit state
record: its filter configuration is the history of successful
`receive_filters` calls, its receive behaviour is a queue of scripted
outcomes, and its transmit operation records every buffer submitted to it.
Mutation of borrowed state is rendered as explicit state passing, the
`error!` diagnostic log as a list of emitted `LogEntry` values, and a Rust
slice-bound panic as an `Option` result (`none` = panic).
-/

/-- The default `MAX_PACKET` parameter for `SnpDevice`s (`DEFAULT_MAX_PACKET`
in `src/device.rs`). -/
def DEFAULT_MAX_PACKET : Nat := 1500

/-- UEFI status values relevant to the adapter. `NOT_READY` is the
distinguished "no frame queued" status; every other constructor stands for
some other status value (`uefi::Status`). -/
inductive Status where
  | notReady
  | bufferTooSmall
  | deviceError
  | other (code : Nat)
deriving DecidableEq, Repr

/-- Bit value of `uefi::proto::network::snp::ReceiveFlags::UNICAST`. -/
def ReceiveFlags.UNICAST : Nat := 0x01

/-- Bit value of `ReceiveFlags::MULTICAST`. -/
def ReceiveFlags.MULTICAST : Nat := 0x02

/-- Bit value of `ReceiveFlags::BROADCAST`. -/
def ReceiveFlags.BROADCAST : Nat := 0x04

/-- Bit value of `ReceiveFlags::PROMISCUOUS`. -/
def ReceiveFlags.PROMISCUOUS : Nat := 0x08

/-- Bit value of `ReceiveFlags::PROMISCUOUS_MULTICAST`. -/
def ReceiveFlags.PROMISCUOUS_MULTICAST : Nat := 0x10

/-- `ReceiveFlags::empty()`: no bits set. -/
def ReceiveFlags.empty : Nat := 0

/-- The arguments of one `SimpleNetwork::receive_filters` call: the enable
mask, the disable mask, the reset-multicast-filter flag and the optional
multicast filter list (a list of MAC addresses, each a byte list). -/
structure FilterArgs where
  enable : Nat
  disable : Nat
  resetMcastFilter : Bool
  mcastFilter : Option (List (List Nat))
deriving DecidableEq, Repr

/-- One diagnostic message emitted through the `log::error!` macro, recording
which site emitted it and the hardware status it reported. -/
inductive LogEntry where
  | rxError (e : Status)
  | txError (e : Status)
deriving DecidableEq, Repr

/-- One scripted outcome of the hardware's non-blocking receive operation:
a fully received frame (`ok data`, where `data` is the frame's bytes and its
length is the size the hardware reports), the "not ready" condition, or some
other error status. -/
inductive RxOutcome where
  | ok (data : List Nat)
  | notReady
  | err (status : Status)
deriving DecidableEq, Repr

/-- Explicit-state model of the external `uefi` `SimpleNetwork` handle.

`currentAddress`, `permanentAddress` and `maxPacketSize` model the
corresponding `Mode` fields. `filterResult` scripts whether the single
filter-configuration call fails (`some e`) or succeeds (`none`).
`filterWrites` is the observable filter configuration: the history of
argument records of successful `receive_filters` calls. `rxQueue` scripts
successive receive outcomes, `rxCaps` records the capacity of every buffer
handed to the hardware receive operation, `txLog` records every buffer
submitted to the hardware transmit operation, and `txResult` scripts whether
a transmit submission fails. -/
structure SimpleNetwork where
  currentAddress : List Nat
  permanentAddress : List Nat
  maxPacketSize : Nat
  filterResult : Option Status
  filterWrites : List FilterArgs
  rxQueue : List RxOutcome
  rxCaps : List Nat
  txLog : List (List Nat)
  txResult : Option Status
deriving DecidableEq, Repr

/-- `SimpleNetwork::receive_filters(enable, disable, reset_mcast_filter,
mcast_filter)`: on success the call is appended to the filter-configuration
history; on failure the handle's scripted status is returned and nothing
changes. -/
def SimpleNetwork.receive_filters (snp : SimpleNetwork) (enable disable : Nat)
    (resetMcastFilter : Bool) (mcastFilter : Option (List (List Nat))) :
    Except Status SimpleNetwork :=
  match snp.filterResult with
  | some e => Except.error e
  | none =>
      Except.ok { snp with
        filterWrites := snp.filterWrites ++
          [{ enable := enable, disable := disable,
             resetMcastFilter := resetMcastFilter, mcastFilter := mcastFilter }] }

/-- `SimpleNetwork::receive(buffer, ...)`: the hardware is handed a caller
buffer (`buf`, whose length is its capacity, recorded in `rxCaps`). The next
scripted outcome is consumed: a frame that fits is written into the front of
the buffer and its length returned; a frame that does not fit yields
`BUFFER_TOO_SMALL`; otherwise the scripted non-success status is returned.
An exhausted script behaves as "not ready". -/
def SimpleNetwork.receive (snp : SimpleNetwork) (buf : List Nat) :
    Except Status (Nat × List Nat) × SimpleNetwork :=
  match snp.rxQueue with
  | [] =>
      (Except.error Status.notReady,
       { snp with rxCaps := snp.rxCaps ++ [buf.length] })
  | o :: rest =>
      match o with
      | RxOutcome.ok data =>
          if data.length ≤ buf.length then
            (Except.ok (data.length, data ++ buf.drop data.length),
             { snp with rxQueue := rest, rxCaps := snp.rxCaps ++ [buf.length] })
          else
            (Except.error Status.bufferTooSmall,
             { snp with rxQueue := rest, rxCaps := snp.rxCaps ++ [buf.length] })
      | RxOutcome.notReady =>
          (Except.error Status.notReady,
           { snp with rxQueue := rest, rxCaps := snp.rxCaps ++ [buf.length] })
      | RxOutcome.err s =>
          (Except.error s,
           { snp with rxQueue := rest, rxCaps := snp.rxCaps ++ [buf.length] })

/-- `SimpleNetwork::transmit(header_size, buffer, ...)`: the submitted buffer
is recorded in `txLog` (the hardware is handed it in either case) and the
call succeeds or fails according to the scripted `txResult`. -/
def SimpleNetwork.transmit (snp : SimpleNetwork) (_headerSize : Nat)
    (buffer : List Nat) : Except Status Unit × SimpleNetwork :=
  match snp.txResult with
  | none => (Except.ok (), { snp with txLog := snp.txLog ++ [buffer] })
  | some e => (Except.error e, { snp with txLog := snp.txLog ++ [buffer] })

/-- Modelled from the spec: `u2s_mac_address` lives in `src/convert.rs`,
which is not among the provided sources. Per the spec it converts a
hardware-native MAC address (possibly longer or padded) into the stack's
6-byte Ethernet address, keeping exactly the first 6 bytes. -/
def u2s_mac_address (addr : List Nat) : List Nat :=
  addr.take 6

/-- `SnpDevice<MAX_PACKET>`: the adapter. It borrows the `SimpleNetwork`
handle; here the borrowed state is held by value and threaded explicitly. -/
structure SnpDevice (MAX_PACKET : Nat) where
  snp : SimpleNetwork
deriving DecidableEq, Repr

/-- `SnpRxToken<MAX_PACKET>`: owns a `MAX_PACKET`-capacity packet buffer and
the valid-length field `size`. -/
structure SnpRxToken (MAX_PACKET : Nat) where
  packet : List Nat
  size : Nat
deriving DecidableEq, Repr

/-- `SnpTxToken<MAX_PACKET>`: borrows only the `SimpleNetwork` handle. -/
structure SnpTxToken (MAX_PACKET : Nat) where
  snp : SimpleNetwork
deriving DecidableEq, Repr

/-- `SnpDevice::new(snp)`: configures receive filters (enable =
`UNICAST | MULTICAST | BROADCAST`, disable = `empty`, no multicast-filter
reset, no multicast filter list) and, on success, returns the adapter over
the updated handle. A filter-configuration failure is returned unmodified. -/
def SnpDevice.new (MAX_PACKET : Nat) (snp : SimpleNetwork) :
    Except Status (SnpDevice MAX_PACKET) :=
  match snp.receive_filters
      (ReceiveFlags.UNICAST ||| ReceiveFlags.MULTICAST ||| ReceiveFlags.BROADCAST)
      ReceiveFlags.empty false none with
  | Except.error e => Except.error e
  | Except.ok snp2 => Except.ok { snp := snp2 }

/-- `SnpDevice::current_address()`. -/
def SnpDevice.current_address {MAX_PACKET : Nat} (dev : SnpDevice MAX_PACKET) :
    List Nat :=
  u2s_mac_address dev.snp.currentAddress

/-- `SnpDevice::permanent_address()`. -/
def SnpDevice.permanent_address {MAX_PACKET : Nat} (dev : SnpDevice MAX_PACKET) :
    List Nat :=
  u2s_mac_address dev.snp.permanentAddress

/-- `Device::receive` for `SnpDevice`: a fresh `SnpRxToken` is created with a
zeroed `MAX_PACKET`-capacity buffer and `size = 0`; the hardware receive is
attempted into that buffer. On success the token's buffer holds what the
hardware wrote, its `size` is the reported length, and it is paired with a
fresh `SnpTxToken`; on `NOT_READY` nothing is returned; on any other error a
diagnostic is logged and nothing is returned. The result is the returned
option, the resulting handle state, and the emitted log. -/
def SnpDevice.receive {MAX_PACKET : Nat} (dev : SnpDevice MAX_PACKET) :
    Option (SnpRxToken MAX_PACKET × SnpTxToken MAX_PACKET) ×
      SimpleNetwork × List LogEntry :=
  match dev.snp.receive (List.replicate MAX_PACKET 0) with
  | (Except.ok (size, written), snp2) =>
      (some ({ packet := written, size := size }, { snp := snp2 }), snp2, [])
  | (Except.error e, snp2) =>
      if e = Status.notReady then
        (none, snp2, [])
      else
        (none, snp2, [LogEntry.rxError e])

/-- `Device::transmit` for `SnpDevice`: unconditionally a fresh transmit
token over the borrowed handle. -/
def SnpDevice.transmit {MAX_PACKET : Nat} (dev : SnpDevice MAX_PACKET) :
    Option (SnpTxToken MAX_PACKET) :=
  some { snp := dev.snp }

/-- `smoltcp::phy::Medium`. -/
inductive Medium where
  | Ethernet
  | Ip
  | Ieee802154
deriving DecidableEq, Repr

/-- The fields of `smoltcp::phy::DeviceCapabilities` the adapter sets
(`medium` and `max_transmission_unit`); the remaining fields are left at
their smoltcp defaults and play no role here. -/
structure DeviceCapabilities where
  medium : Medium
  max_transmission_unit : Nat
deriving DecidableEq, Repr

/-- `Device::capabilities` for `SnpDevice`: medium = Ethernet, MTU =
`min(snp.mode().max_packet_size, MAX_PACKET)`. -/
def SnpDevice.capabilities {MAX_PACKET : Nat} (dev : SnpDevice MAX_PACKET) :
    DeviceCapabilities :=
  { medium := Medium.Ethernet,
    max_transmission_unit := min dev.snp.maxPacketSize MAX_PACKET }

/-- `RxToken::consume` for `SnpRxToken`: applies `f` to the slice
`&self.packet[..self.size]`. The Rust slice panics when `size` exceeds the
buffer's length; that panic is modelled as `none`. -/
def SnpRxToken.consume {MAX_PACKET : Nat} {R : Type} (tok : SnpRxToken MAX_PACKET)
    (f : List Nat → R) : Option R :=
  if tok.size ≤ tok.packet.length then
    some (f (tok.packet.take tok.size))
  else
    none

/-- `TxToken::consume` for `SnpTxToken`: materializes a zeroed on-stack
buffer of capacity `MAX_PACKET`, takes the slice `&mut buf[..len]` (a panic
when `len > MAX_PACKET`, modelled as `none`), lets the filler `f` act on it —
`f` returns its result paired with the slice's final contents — then submits
the filled slice to the hardware transmit operation; a transmit failure is
logged and discarded. The filler's result is returned together with the
resulting handle state and the emitted log. -/
def SnpTxToken.consume {MAX_PACKET : Nat} {R : Type} (tok : SnpTxToken MAX_PACKET)
    (len : Nat) (f : List Nat → R × List Nat) :
    Option (R × SimpleNetwork × List LogEntry) :=
  if len ≤ MAX_PACKET then
    match tok.snp.transmit 0 (f ((List.replicate MAX_PACKET 0).take len)).2 with
    | (Except.ok _, snp2) =>
        some ((f ((List.replicate MAX_PACKET 0).take len)).1, snp2, [])
    | (Except.error e, snp2) =>
        some ((f ((List.replicate MAX_PACKET 0).take len)).1, snp2,
          [LogEntry.txError e])
  else
    none

/-! ## Helper lemmas about the hardware-handle model -/

/-- A hardware receive call only consumes the outcome script and records the
buffer capacity it was handed: the filter configuration and the transmit log
are untouched. -/
theorem SimpleNetwork.receive_state_fields (snp : SimpleNetwork) (buf : List Nat) :
    ((snp.receive buf).2).filterWrites = snp.filterWrites ∧
    ((snp.receive buf).2).rxCaps = snp.rxCaps ++ [buf.length] ∧
    ((snp.receive buf).2).txLog = snp.txLog := by
  unfold SimpleNetwork.receive
  split
  · simp
  · split
    · split <;> simp
    · simp
    · simp

/-- A hardware receive into a fresh `MAX_PACKET`-capacity zero buffer, when
the next scripted outcome is a frame `data` that fits: the reported length is
`data.length`, the buffer now starts with `data` (its zeroed tail beyond the
frame untouched), and the handle records the `MAX_PACKET` capacity it was
handed. -/
theorem snp_receive_ok (MAX_PACKET : Nat) (snp : SimpleNetwork) (data : List Nat)
    (rest : List RxOutcome) (hq : snp.rxQueue = RxOutcome.ok data :: rest)
    (hn : data.length ≤ MAX_PACKET) :
    snp.receive (List.replicate MAX_PACKET 0) =
      (Except.ok (data.length, data ++ (List.replicate MAX_PACKET 0).drop data.length),
       { snp with rxQueue := rest, rxCaps := snp.rxCaps ++ [MAX_PACKET] }) := by
  unfold SimpleNetwork.receive
  rw [hq]
  simp [hn]

/-- The handle state coming out of the adapter's receive is exactly the
handle state coming out of the hardware receive call, in every branch. -/
theorem SnpDevice.receive_snd {MAX_PACKET : Nat} (dev : SnpDevice MAX_PACKET) :
    (SnpDevice.receive dev).2.1 =
      (dev.snp.receive (List.replicate MAX_PACKET 0)).2 := by
  unfold SnpDevice.receive
  rcases hp : dev.snp.receive (List.replicate MAX_PACKET 0) with ⟨r, snp2⟩
  cases r with
  | ok v =>
    rcases v with ⟨size, written⟩
    rfl
  | error e => by_cases he : e = Status.notReady <;> simp [he]

/-- Full characterization of a transmit-token consumption with an in-bounds
requested length: the filler is handed the `n` zeroed bytes, its final slice
contents are appended to the hardware transmit log, its result is returned,
and a scripted transmit failure surfaces only as a log entry. -/
theorem tx_consume_spec {MAX_PACKET : Nat} {R : Type}
    (tok : SnpTxToken MAX_PACKET) (n : Nat) (f : List Nat → R × List Nat)
    (hn : n ≤ MAX_PACKET) :
    SnpTxToken.consume tok n f =
      some ((f (List.replicate n 0)).1,
        { tok.snp with txLog := tok.snp.txLog ++ [(f (List.replicate n 0)).2] },
        match tok.snp.txResult with
        | none => []
        | some e => [LogEntry.txError e]) := by
  have hz : (List.replicate MAX_PACKET (0 : Nat)).take n = List.replicate n 0 := by
    simp [List.take_replicate, Nat.min_eq_left hn]
  unfold SnpTxToken.consume SimpleNetwork.transmit
  rw [if_pos hn, hz]
  cases htx : tok.snp.txResult <;> simp [htx]

/-- A hardware transmit call only appends the submitted buffer to the
transmit log: the filter configuration and receive records are untouched. -/
theorem SimpleNetwork.transmit_state_fields (snp : SimpleNetwork) (hs : Nat)
    (p : List Nat) :
    ((snp.transmit hs p).2).filterWrites = snp.filterWrites ∧
    ((snp.transmit hs p).2).txLog = snp.txLog ++ [p] ∧
    ((snp.transmit hs p).2).rxCaps = snp.rxCaps := by
  unfold SimpleNetwork.transmit
  cases snp.txResult <;> simp

/-! ## Concrete states used by witnesses -/

/-- A quiescent hardware handle: filters configurable, no scripted frames,
transmit succeeds. -/
def snpBase : SimpleNetwork :=
  { currentAddress := List.replicate 32 0xAA,
    permanentAddress := List.replicate 32 0xBB,
    maxPacketSize := 9000,
    filterResult := none,
    filterWrites := [],
    rxQueue := [],
    rxCaps := [],
    txLog := [],
    txResult := none }

/-- A concrete receive token with capacity 4 and valid-length 2. -/
def rxTok4 : SnpRxToken 4 :=
  { packet := [5, 6, 7, 8], size := 2 }

/-- A concrete transmit token with `MAX_PACKET = 4`. -/
def txTok4 : SnpTxToken 4 :=
  { snp := snpBase }

/-- A `MAX_PACKET = 5` adapter whose handle has one scripted 3-byte frame. -/
def devRx3 : SnpDevice 5 :=
  { snp := { snpBase with rxQueue := [RxOutcome.ok [1, 2, 3]] } }

/-- A `MAX_PACKET = 4` adapter whose handle scripts a `DEVICE_ERROR`
receive. -/
def devRxErr : SnpDevice 4 :=
  { snp := { snpBase with rxQueue := [RxOutcome.err Status.deviceError] } }

/-- A `MAX_PACKET = 4` transmit token whose handle scripts a failing
transmit. -/
def txTokFail : SnpTxToken 4 :=
  { snp := { snpBase with txResult := some Status.deviceError } }

/-- A handle whose filter-configuration call is scripted to fail. -/
def snpFilterFail : SimpleNetwork :=
  { snpBase with filterResult := some (Status.other 8) }

/-! ## Claim theorems -/

/-- C3: for every adapter state and every hardware-advertised maximum packet
size, `capabilities` reports medium = Ethernet and an MTU equal to
`min(hardware max packet size, MAX_PACKET)`. -/
theorem capabilities_ethernet_mtu {MAX_PACKET : Nat} (dev : SnpDevice MAX_PACKET) :
    (SnpDevice.capabilities dev).medium = Medium.Ethernet ∧
    (SnpDevice.capabilities dev).max_transmission_unit
      = min dev.snp.maxPacketSize MAX_PACKET :=
  ⟨rfl, rfl⟩

/-- C4: consuming a receive token with valid-length `s` and buffer `b`
applies the consumer `f` to exactly the first `s` bytes of `b` (a view of
exactly `s` bytes, never the full capacity) and returns exactly `f`'s
value. The equation `consume tok f = some (f view)` exhibits the single
application of `f` and the propagation of its return value. -/
theorem rx_consume_exact_view {MAX_PACKET : Nat} {R : Type}
    (tok : SnpRxToken MAX_PACKET) (f : List Nat → R)
    (h : tok.size ≤ tok.packet.length) :
    SnpRxToken.consume tok f = some (f (tok.packet.take tok.size)) ∧
    (tok.packet.take tok.size).length = tok.size := by
  refine ⟨?_, ?_⟩
  · unfold SnpRxToken.consume
    simp [h]
  · simp [List.length_take, Nat.min_eq_left h]

/-- Witness for `rx_consume_exact_view`: capacity 4, valid-length 2, the
consumed view is `[5, 6]`. -/
theorem rx_consume_exact_view_witness :
    SnpRxToken.consume rxTok4 (fun v => v) = some [5, 6] ∧
    (rxTok4.packet.take rxTok4.size).length = rxTok4.size := by
  have h := rx_consume_exact_view rxTok4 (fun v => v) (by decide)
  simpa [rxTok4] using h

/-- C8: a transmit-token consumption with a requested length larger than
`MAX_PACKET` hits the out-of-bounds slice `&mut buf[..len]` — a panic,
modelled as `none`: no truncated frame is built and nothing is submitted to
the hardware. -/
theorem tx_consume_oversized_len {MAX_PACKET : Nat} {R : Type}
    (tok : SnpTxToken MAX_PACKET) (len : Nat) (f : List Nat → R × List Nat)
    (h : MAX_PACKET < len) :
    SnpTxToken.consume tok len f = none := by
  unfold SnpTxToken.consume
  rw [if_neg (by omega)]

/-- Witness for `tx_consume_oversized_len`: requesting 7 bytes from a
`MAX_PACKET = 4` token panics. -/
theorem tx_consume_oversized_len_witness :
    SnpTxToken.consume txTok4 7 (fun l => ((0 : Nat), l)) = none :=
  tx_consume_oversized_len txTok4 7 (fun l => ((0 : Nat), l)) (by decide)

/-- C1: when the hardware receive succeeds with a frame of length `n`
(`data.length`), the adapter's receive returns a receive token whose
recorded valid-length `size` is exactly `n` and whose consumed view is
exactly the `n` received bytes, paired with a freshly created transmit
token over the resulting handle state. -/
theorem receive_success_tokens {MAX_PACKET : Nat} (dev : SnpDevice MAX_PACKET)
    (data : List Nat) (rest : List RxOutcome)
    (hq : dev.snp.rxQueue = RxOutcome.ok data :: rest)
    (hn : data.length ≤ MAX_PACKET) :
    ∃ rx tx snp2,
      SnpDevice.receive dev = (some (rx, tx), snp2, []) ∧
      rx.size = data.length ∧
      SnpRxToken.consume rx (fun v => v) = some data ∧
      tx = SnpTxToken.mk snp2 := by
  unfold SnpDevice.receive
  rw [snp_receive_ok MAX_PACKET dev.snp data rest hq hn]
  refine ⟨_, _, _, rfl, rfl, ?_, rfl⟩
  unfold SnpRxToken.consume
  rw [if_pos (by simp)]
  simp [List.take_left]

/-- Witness for `receive_success_tokens`: a scripted 3-byte frame on a
`MAX_PACKET = 5` adapter. -/
theorem receive_success_tokens_witness :
    ∃ rx tx snp2,
      SnpDevice.receive devRx3 = (some (rx, tx), snp2, []) ∧
      rx.size = ([1, 2, 3] : List Nat).length ∧
      SnpRxToken.consume rx (fun v => v) = some [1, 2, 3] ∧
      tx = SnpTxToken.mk snp2 :=
  receive_success_tokens devRx3 [1, 2, 3] [] rfl (by decide)

/-- C2: when the hardware receive fails with any status `e`, the adapter's
receive returns `none` — the same returned value whether `e` is `NOT_READY`
or not — and only the emitted log distinguishes the two cases: empty for
`NOT_READY`, one diagnostic entry otherwise. No error value reaches the
caller. -/
theorem receive_nonsuccess_none {MAX_PACKET : Nat} (dev : SnpDevice MAX_PACKET)
    (e : Status)
    (h : (dev.snp.receive (List.replicate MAX_PACKET 0)).1 = Except.error e) :
    (SnpDevice.receive dev).1 = none ∧
    (SnpDevice.receive dev).2.2 =
      (if e = Status.notReady then [] else [LogEntry.rxError e]) := by
  unfold SnpDevice.receive
  rcases hp : dev.snp.receive (List.replicate MAX_PACKET 0) with ⟨r, snp2⟩
  rw [hp] at h
  simp only at h
  subst h
  by_cases he : e = Status.notReady <;> simp [he]

/-- Witness for `receive_nonsuccess_none`: a scripted `DEVICE_ERROR` receive
yields `none` plus one diagnostic log entry. -/
theorem receive_nonsuccess_none_witness :
    (SnpDevice.receive devRxErr).1 = none ∧
    (SnpDevice.receive devRxErr).2.2 =
      (if Status.deviceError = Status.notReady then []
       else [LogEntry.rxError Status.deviceError]) :=
  receive_nonsuccess_none devRxErr Status.deviceError rfl

/-- C5: consuming a transmit token with an in-bounds requested length `n`
hands the filler `f` a buffer of exactly `n` bytes, all zero, and submits to
the hardware transmit operation exactly the bytes as left by the filler
(`n` of them, for a filler that mutates the slice in place, i.e. preserves
its length). -/
theorem tx_consume_zeroed_submit {MAX_PACKET : Nat} {R : Type}
    (tok : SnpTxToken MAX_PACKET) (n : Nat) (f : List Nat → R × List Nat)
    (hn : n ≤ MAX_PACKET)
    (hf : ((f (List.replicate n 0)).2).length = n) :
    (List.replicate n (0 : Nat)).length = n ∧
    (∀ b ∈ List.replicate n (0 : Nat), b = 0) ∧
    ∃ snp2 log,
      SnpTxToken.consume tok n f = some ((f (List.replicate n 0)).1, snp2, log) ∧
      snp2.txLog = tok.snp.txLog ++ [(f (List.replicate n 0)).2] ∧
      ((f (List.replicate n 0)).2).length = n := by
  refine ⟨by simp, by simp, ?_⟩
  exact ⟨_, _, tx_consume_spec tok n f hn, rfl, hf⟩

/-- Witness for `tx_consume_zeroed_submit`: a 2-byte transmit on a
`MAX_PACKET = 4` token, with a filler that increments every byte. -/
theorem tx_consume_zeroed_submit_witness :
    (List.replicate 2 (0 : Nat)).length = 2 ∧
    (∀ b ∈ List.replicate 2 (0 : Nat), b = 0) ∧
    ∃ snp2 log,
      SnpTxToken.consume txTok4 2 (fun (l : List Nat) => ((7 : Nat), l.map (fun b => b + 1)))
        = some (((fun (l : List Nat) => ((7 : Nat), l.map (fun b => b + 1)))
            (List.replicate 2 0)).1, snp2, log) ∧
      snp2.txLog = txTok4.snp.txLog ++
        [((fun (l : List Nat) => ((7 : Nat), l.map (fun b => b + 1))) (List.replicate 2 0)).2] ∧
      (((fun (l : List Nat) => ((7 : Nat), l.map (fun b => b + 1)))
          (List.replicate 2 0)).2).length = 2 :=
  tx_consume_zeroed_submit txTok4 2 (fun (l : List Nat) => ((7 : Nat), l.map (fun b => b + 1)))
    (by decide) (by decide)

/-- C6: the value a transmit-token consumption returns to the caller is
exactly the filler's return value, whether the scripted hardware transmit
succeeds or fails; a failure surfaces only as a diagnostic log entry, never
as an error to the caller. -/
theorem tx_consume_returns_filler_result {MAX_PACKET : Nat} {R : Type}
    (tok : SnpTxToken MAX_PACKET) (n : Nat) (f : List Nat → R × List Nat)
    (hn : n ≤ MAX_PACKET) :
    ∃ snp2,
      SnpTxToken.consume tok n f =
        some ((f (List.replicate n 0)).1, snp2,
          match tok.snp.txResult with
          | none => []
          | some e => [LogEntry.txError e]) :=
  ⟨_, tx_consume_spec tok n f hn⟩

/-- Witness for `tx_consume_returns_filler_result`: a token whose scripted
transmit fails with `DEVICE_ERROR` still returns the filler's value `9`,
with one diagnostic log entry. -/
theorem tx_consume_returns_filler_result_witness :
    ∃ snp2,
      SnpTxToken.consume txTokFail 3 (fun (l : List Nat) => ((9 : Nat), l)) =
        some (((fun (l : List Nat) => ((9 : Nat), l)) (List.replicate 3 0)).1, snp2,
          match txTokFail.snp.txResult with
          | none => []
          | some e => [LogEntry.txError e]) :=
  tx_consume_returns_filler_result txTokFail 3 (fun (l : List Nat) => ((9 : Nat), l)) (by decide)

/-- C7: constructing the adapter performs the single filter-configuration
call with enable = unicast, multicast and broadcast (a mask that does not
contain the promiscuous bits), disable = empty, no multicast-filter reset
and no multicast filter list; it fails exactly when that call fails, and
then returns the hardware's status unmodified. -/
theorem new_sets_filters_or_fails (MAX_PACKET : Nat) (snp : SimpleNetwork) :
    (∀ e, snp.filterResult = some e →
      SnpDevice.new MAX_PACKET snp = Except.error e) ∧
    (snp.filterResult = none →
      ∃ dev : SnpDevice MAX_PACKET,
        SnpDevice.new MAX_PACKET snp = Except.ok dev ∧
        dev.snp.filterWrites = snp.filterWrites ++
          [{ enable := ReceiveFlags.UNICAST ||| ReceiveFlags.MULTICAST |||
               ReceiveFlags.BROADCAST,
             disable := ReceiveFlags.empty,
             resetMcastFilter := false,
             mcastFilter := none }] ∧
        (ReceiveFlags.UNICAST ||| ReceiveFlags.MULTICAST ||| ReceiveFlags.BROADCAST)
            &&& (ReceiveFlags.PROMISCUOUS ||| ReceiveFlags.PROMISCUOUS_MULTICAST)
          = 0) := by
  constructor
  · intro e he
    unfold SnpDevice.new SimpleNetwork.receive_filters
    rw [he]
  · intro hnone
    unfold SnpDevice.new SimpleNetwork.receive_filters
    rw [hnone]
    exact ⟨_, rfl, rfl, by decide⟩

/-- Witness for `new_sets_filters_or_fails`: a handle whose filter call
fails with a concrete status makes construction return that very status; a
handle whose filter call succeeds yields an adapter with exactly the one
expected filter write. -/
theorem new_sets_filters_or_fails_witness :
    SnpDevice.new 1500 snpFilterFail = Except.error (Status.other 8) ∧
    ∃ dev : SnpDevice 1500,
      SnpDevice.new 1500 snpBase = Except.ok dev ∧
      dev.snp.filterWrites = snpBase.filterWrites ++
        [{ enable := ReceiveFlags.UNICAST ||| ReceiveFlags.MULTICAST |||
             ReceiveFlags.BROADCAST,
           disable := ReceiveFlags.empty,
           resetMcastFilter := false,
           mcastFilter := none }] ∧
      (ReceiveFlags.UNICAST ||| ReceiveFlags.MULTICAST ||| ReceiveFlags.BROADCAST)
          &&& (ReceiveFlags.PROMISCUOUS ||| ReceiveFlags.PROMISCUOUS_MULTICAST)
        = 0 :=
  ⟨(new_sets_filters_or_fails 1500 snpFilterFail).1 (Status.other 8) rfl,
   (new_sets_filters_or_fails 1500 snpBase).2 rfl⟩

/-- A concrete transmit token with the default `MAX_PACKET = 1500`. -/
def txTok1500 : SnpTxToken 1500 :=
  { snp := snpBase }

/-- A concrete transmit token with `MAX_PACKET = 5`. -/
def txTok5 : SnpTxToken 5 :=
  { snp := snpBase }

/-- C9 counterexample: the buffer the transmit-token consumption hands to the
hardware transmit operation is the slice of the requested length, not the
full `MAX_PACKET` backing buffer. Consuming a `MAX_PACKET = 1500` token with
requested length 46 and an identity filler submits a 46-byte buffer to the
hardware, and 46 is not 1500 — refuting the claim that every buffer passed
to the hardware handle has exactly `MAX_PACKET` capacity. -/
theorem tx_buffer_not_max_packet_counterexample :
    SnpTxToken.consume txTok1500 46 (fun (l : List Nat) => ((0 : Nat), l)) =
      some (0, { snpBase with txLog := [List.replicate 46 0] }, []) ∧
    (List.replicate 46 (0 : Nat)).length = 46 ∧ (46 : Nat) ≠ 1500 := by
  refine ⟨?_, by decide, by decide⟩
  rfl

/-- C9 amended: the buffer handed to the hardware receive operation has
exactly `MAX_PACKET` capacity; the buffer handed to the hardware transmit
operation is the requested-length slice of a `MAX_PACKET`-capacity stack
buffer — exactly `n` bytes, never more than `MAX_PACKET` (for a filler that
mutates the slice in place, i.e. preserves its length). -/
theorem hardware_buffer_capacities {MAX_PACKET : Nat} {R : Type}
    (dev : SnpDevice MAX_PACKET) (tok : SnpTxToken MAX_PACKET) (n : Nat)
    (f : List Nat → R × List Nat) (hn : n ≤ MAX_PACKET)
    (hf : ((f (List.replicate n 0)).2).length = n) :
    (SnpDevice.receive dev).2.1.rxCaps = dev.snp.rxCaps ++ [MAX_PACKET] ∧
    ∃ snp2 log,
      SnpTxToken.consume tok n f = some ((f (List.replicate n 0)).1, snp2, log) ∧
      snp2.txLog = tok.snp.txLog ++ [(f (List.replicate n 0)).2] ∧
      ((f (List.replicate n 0)).2).length = n ∧ n ≤ MAX_PACKET := by
  constructor
  · rw [SnpDevice.receive_snd]
    have h := (SimpleNetwork.receive_state_fields dev.snp
      (List.replicate MAX_PACKET 0)).2.1
    simpa using h
  · exact ⟨_, _, tx_consume_spec tok n f hn, rfl, hf, hn⟩

/-- Witness for `hardware_buffer_capacities`: the `MAX_PACKET = 5` adapter
hands the hardware a 5-byte receive buffer, and a 3-byte transmit hands it a
3-byte slice. -/
theorem hardware_buffer_capacities_witness :
    (SnpDevice.receive devRx3).2.1.rxCaps = devRx3.snp.rxCaps ++ [5] ∧
    ∃ snp2 log,
      SnpTxToken.consume txTok5 3 (fun (l : List Nat) => ((0 : Nat), l)) =
        some (((fun (l : List Nat) => ((0 : Nat), l))
          (List.replicate 3 0)).1, snp2, log) ∧
      snp2.txLog = txTok5.snp.txLog ++
        [((fun (l : List Nat) => ((0 : Nat), l)) (List.replicate 3 0)).2] ∧
      (((fun (l : List Nat) => ((0 : Nat), l)) (List.replicate 3 0)).2).length = 3 ∧
      3 ≤ 5 :=
  hardware_buffer_capacities devRx3 txTok5 3 (fun (l : List Nat) => ((0 : Nat), l))
    (by decide) (by decide)

/-- C10: the filter-configuration history is written exactly once, by
construction, and by nothing else. `SnpDevice.new` appends the single
expected filter write on success (and writes nothing on failure); the
adapter's receive and a transmit-token consumption leave `filterWrites`
untouched in the handle states they produce; the poll-transmit operation
returns a token over the unchanged handle; `capabilities`,
`current_address` and `permanent_address` are pure functions of the handle
that return no handle state at all, as is a receive-token consumption,
whose type does not even mention the handle. -/
theorem filter_config_written_only_by_new {MAX_PACKET : Nat} {R : Type}
    (snp : SimpleNetwork) (dev : SnpDevice MAX_PACKET)
    (tok : SnpTxToken MAX_PACKET) (len : Nat) (f : List Nat → R × List Nat) :
    (match SnpDevice.new MAX_PACKET snp with
     | Except.ok dev2 => dev2.snp.filterWrites = snp.filterWrites ++
         [{ enable := ReceiveFlags.UNICAST ||| ReceiveFlags.MULTICAST |||
              ReceiveFlags.BROADCAST,
            disable := ReceiveFlags.empty,
            resetMcastFilter := false,
            mcastFilter := none }]
     | Except.error _ => snp.filterWrites = snp.filterWrites) ∧
    (SnpDevice.receive dev).2.1.filterWrites = dev.snp.filterWrites ∧
    SnpDevice.transmit dev = some { snp := dev.snp } ∧
    SnpDevice.capabilities dev =
      { medium := Medium.Ethernet,
        max_transmission_unit := min dev.snp.maxPacketSize MAX_PACKET } ∧
    SnpDevice.current_address dev = u2s_mac_address dev.snp.currentAddress ∧
    SnpDevice.permanent_address dev = u2s_mac_address dev.snp.permanentAddress ∧
    (match SnpTxToken.consume tok len f with
     | some (_, snp2, _) => snp2.filterWrites = tok.snp.filterWrites
     | none => tok.snp.filterWrites = tok.snp.filterWrites) := by
  refine ⟨?_, ?_, rfl, rfl, rfl, rfl, ?_⟩
  · unfold SnpDevice.new SimpleNetwork.receive_filters
    cases hfr : snp.filterResult <;> simp
  · rw [SnpDevice.receive_snd]
    exact (SimpleNetwork.receive_state_fields dev.snp
      (List.replicate MAX_PACKET 0)).1
  · by_cases hlen : len ≤ MAX_PACKET
    · rw [tx_consume_spec tok len f hlen]
    · unfold SnpTxToken.consume
      rw [if_neg hlen]
